import Mathlib

/-!
Shallow embedding of `src/main.py` of the ai-news-explainer pipeline, together
with theorems settling the specification claims about it.

External collaborators (the HTTP transport, BeautifulSoup, the Gemini client,
`json.loads`, the logger) are modelled at their interface boundary: each is an
input to the embedded function (an oracle of attempt outcomes, a pre-parsed
page structure, a parse function), while every piece of control flow written
in `main.py` itself is translated line by line.
-/

set_option autoImplicit false

/-- Outcome of one call to `client.models.generate_content` (src/main.py line 91):
either the response text, or a raised exception carrying its message string. -/
inductive AttemptOutcome where
  | success (text : String)
  | failure (msg : String)

/-- Observable timing/IO events of `getGeminiResponse`: one `call n` per
iteration of the retry loop (attempt number `n`, starting at 0) and one
`sleep s` per `time.sleep(s)` executed. -/
inductive GEvent where
  | call (n : Nat)
  | sleep (secs : Nat)
deriving DecidableEq

/-- Boolean test that `pre` is an initial segment of `l` (character lists). -/
def listLeadsWith : List Char → List Char → Bool
  | [], _ => true
  | _ :: _, [] => false
  | a :: as, b :: bs => a == b && listLeadsWith as bs

/-- Boolean substring containment on character lists: the Python string test `needle in hay`
for strings. -/
def substrB (needle : List Char) : List Char → Bool
  | [] => listLeadsWith needle []
  | c :: t => listLeadsWith needle (c :: t) || substrB needle t

/-- The fixed transient-overload markers of src/main.py line 104. -/
def transientMarkers : List String :=
  ["503", "429", "UNAVAILABLE", "RESOURCE_EXHAUSTED"]

/-- `any(err in error_message for err in [...])` (src/main.py line 104). -/
def isTransient (error_message : String) : Bool :=
  transientMarkers.any (fun err => substrB err.toList error_message.toList)

/-- The retry loop body of `getGeminiResponse` (src/main.py lines 89-117).
`oracle n` is the outcome of the model call on attempt `n`; `remaining` is the
number of loop iterations still allowed (`max_retries - attempt`).  Returns the
Python return value (`some text` or `none` for `None`) together with the list
of call/sleep events in execution order.  The guard `0 < remaining` after a
transient failure is `attempt < max_retries - 1` of line 107. -/
def geminiAttempts (oracle : Nat → AttemptOutcome) (retry_delay success_delay : Nat) :
    Nat → Nat → Option String × List GEvent
  | _, 0 => (none, [])
  | attempt, remaining + 1 =>
    match oracle attempt with
    | .success text => (some text, [.call attempt, .sleep success_delay])
    | .failure msg =>
      if isTransient msg then
        if 0 < remaining then
          let rest := geminiAttempts oracle retry_delay success_delay (attempt + 1) remaining
          (rest.1, .call attempt :: .sleep (retry_delay * 2 ^ attempt) :: rest.2)
        else
          (none, [.call attempt])
      else
        (none, [.call attempt])

/-- `getGeminiResponse(title, body, max_retries, retry_delay, success_delay)`
(src/main.py lines 55-117), abstracted over the model-call oracle (the prompt
assembly of lines 59-86 only builds the fixed request and does not affect the
control flow being verified; title and body reach the code solely through the
behaviour of the oracle).  The source defaults are `max_retries=3`, `retry_delay=5`,
`success_delay=3`. -/
def getGeminiResponse (oracle : Nat → AttemptOutcome)
    (max_retries retry_delay success_delay : Nat) : Option String × List GEvent :=
  geminiAttempts oracle retry_delay success_delay 0 max_retries

/-- Trace description used in theorem statements: the events produced by `k`
consecutive transient failures starting at attempt `a` that are each followed
by a retry (call, then backoff sleep of `d * 2 ^ attempt`). -/
def transientEvents (d : Nat) : Nat → Nat → List GEvent
  | _, 0 => []
  | a, k + 1 => .call a :: .sleep (d * 2 ^ a) :: transientEvents d (a + 1) k

/-- JSON values as produced by `json.loads` (numbers modelled as integers; no
required field of the payload is numeric). An object is its ordered field
list; `json.loads` keeps the last binding of a duplicated key. -/
inductive Jval where
  | jnull
  | jbool (b : Bool)
  | jnum (n : Int)
  | jstr (s : String)
  | jarr (xs : List Jval)
  | jobj (fields : List (String × Jval))

/-- The distinct ways the rendering code can fail: `exn` is a
`raise Exception(msg)` written in src/main.py itself, `keyError k` is the Python
KeyError raised by a subscript `d[k]` on a dict lacking `k`, `typeError` is a
TypeError from applying `in`, `[]` or iteration to a value of the wrong type,
and `jsonDecodeError` is a `json.loads` parse failure. -/
inductive PyError where
  | exn (msg : String)
  | keyError (key : String)
  | typeError (msg : String)
  | jsonDecodeError
deriving DecidableEq

/-- A single-quote character, written via its code point. -/
def squote : String := String.singleton (Char.ofNat 39)

mutual

/-- Python `repr` of a JSON value (string escaping inside `repr` is modelled
as the identity; no claim exercises it). -/
def pyRepr : Jval → String
  | .jnull => "None"
  | .jbool b => cond b "True" "False"
  | .jnum n => toString n
  | .jstr s => squote ++ s ++ squote
  | .jarr xs => "[" ++ pyReprList xs ++ "]"
  | .jobj fs => "\x7b" ++ pyReprFields fs ++ "\x7d"

/-- Comma-separated `repr`s of list elements. -/
def pyReprList : List Jval → String
  | [] => ""
  | [x] => pyRepr x
  | x :: y :: rest => pyRepr x ++ ", " ++ pyReprList (y :: rest)

/-- Comma-separated `repr`s of dict entries. -/
def pyReprFields : List (String × Jval) → String
  | [] => ""
  | [p] => squote ++ p.1 ++ squote ++ ": " ++ pyRepr p.2
  | p :: q :: rest =>
    squote ++ p.1 ++ squote ++ ": " ++ pyRepr p.2 ++ ", " ++ pyReprFields (q :: rest)

end

/-- Python `str()` as applied by f-string interpolation: identity on strings,
`repr`-style otherwise. -/
def pyStr : Jval → String
  | .jstr s => s
  | v => pyRepr v

/-- Dict lookup: the value of the last binding of key `k` (Python dict
semantics for the assoc list produced by `json.loads`). -/
def dictGet (fs : List (String × Jval)) (k : String) : Option Jval :=
  (fs.reverse.find? (fun p => p.1 == k)).map Prod.snd

/-- Python `k in v` for a string `k`: key membership on dicts, element
equality on lists (a string equals only an equal string), substring test on
strings, TypeError otherwise. -/
def pyIn (k : String) : Jval → Except PyError Bool
  | .jobj fs => .ok (fs.any (fun p => p.1 == k))
  | .jarr xs => .ok (xs.any (fun v => match v with | .jstr s => s == k | _ => false))
  | .jstr s => .ok (substrB k.toList s.toList)
  | .jnull => .error (.typeError "argument of type NoneType is not iterable")
  | .jbool _ => .error (.typeError "argument of type bool is not iterable")
  | .jnum _ => .error (.typeError "argument of type int is not iterable")

/-- Python subscript `v[k]` for a string key `k`: dict lookup raising
KeyError on a missing key, TypeError on non-dict values. -/
def pySubscript (v : Jval) (k : String) : Except PyError Jval :=
  match v with
  | .jobj fs =>
    match dictGet fs k with
    | some x => .ok x
    | none => .error (.keyError k)
  | .jarr _ => .error (.typeError "list indices must be integers or slices, not str")
  | .jstr _ => .error (.typeError "string indices must be integers, not str")
  | .jnull => .error (.typeError "NoneType object is not subscriptable")
  | .jbool _ => .error (.typeError "bool object is not subscriptable")
  | .jnum _ => .error (.typeError "int object is not subscriptable")

/-- Python iteration `for x in v`: the elements of a list, the characters of a
string (as one-character strings), the keys of a dict, TypeError otherwise. -/
def pyIter : Jval → Except PyError (List Jval)
  | .jarr xs => .ok xs
  | .jstr s => .ok (s.toList.map (fun c => .jstr (String.singleton c)))
  | .jobj fs => .ok (fs.map (fun p => Jval.jstr p.1))
  | .jnull => .error (.typeError "NoneType object is not iterable")
  | .jbool _ => .error (.typeError "bool object is not iterable")
  | .jnum _ => .error (.typeError "int object is not iterable")

/-- The required-field list of src/main.py line 125, in source order. -/
def required_keys : List String :=
  ["title", "summary", "meaning", "importance", "impact_on_us", "food_for_thought", "key_terms"]

/-- The validation loop of src/main.py lines 126-128:
`for key in required_keys: if key not in json_response: raise Exception(...)`. -/
def checkKeysLoop (json_response : Jval) : List String → Except PyError Unit
  | [] => .ok ()
  | key :: rest => do
    let present ← pyIn key json_response
    if !present then
      .error (.exn ("🛑 " ++ key ++ " 키가 존재하지 않습니다."))
    else
      checkKeysLoop json_response rest
/-- Literal chunk 0 of the term_html f-string template in generate_key_terms_html (src/main.py lines 134-142). -/
def termTpl0 : String :=
  "\n                        <li class=\"border-l-4 border-green-500 pl-4\">\n                            <strong class=\"font-bold text-green-700 text-lg block\">\n                                "

/-- Literal chunk 1 of the term_html f-string template in generate_key_terms_html (src/main.py lines 134-142). -/
def termTpl1 : String :=
  "\n                            </strong>\n                            <span class=\"text-gray-600\">\n                                "

/-- Literal chunk 2 of the term_html f-string template in generate_key_terms_html (src/main.py lines 134-142). -/
def termTpl2 : String :=
  "\n                            </span>\n                        </li>"

/-- Literal chunk A of the html_response f-string template in convertToHtml (src/main.py lines 147-234). -/
def tplA : String :=
  "\n    <div class=\"max-w-3xl mx-auto my-8 sm:my-12\">\n        <div class=\"bg-white rounded-xl shadow-lg overflow-hidden\">\n            <div class=\"p-6 sm:p-10\">\n                \n                <h1 class=\"text-3xl sm:text-4xl font-bold text-gray-900 leading-tight mb-4\">\n                    "

/-- Literal chunk B of the html_response f-string template in convertToHtml (src/main.py lines 147-234). -/
def tplB : String :=
  "\n                </h1>\n                \n                <div class=\"bg-blue-50 border-l-4 border-blue-400 p-4 rounded-r-lg mb-10\">\n                    <p class=\"text-base sm:text-lg font-semibold text-blue-800\">\n                        <span class=\"font-bold\">한 줄 요약!</span>\n                        "

/-- Literal chunk C of the html_response f-string template in convertToHtml (src/main.py lines 147-234). -/
def tplC : String :=
  "\n                    </p>\n                </div>\n\n                <div class=\"space-y-10\">\n                    <div>\n                        <h2 class=\"text-2xl font-bold text-gray-800 mb-3 flex items-center\">\n                            <span class=\"text-3xl mr-3\">💡</span>\n                            무슨 뜻일까요?\n                        </h2>\n                        <p class=\"text-gray-700 text-base sm:text-lg leading-relaxed\">\n                            "

/-- Literal chunk D of the html_response f-string template in convertToHtml (src/main.py lines 147-234). -/
def tplD : String :=
  "\n                        </p>\n                    </div>\n\n                    <div>\n                        <h2 class=\"text-2xl font-bold text-gray-800 mb-3 flex items-center\">\n                            <span class=\"text-3xl mr-3\">🌍</span>\n                            이게 왜 중요할까요?\n                        </h2>\n                        <p class=\"text-gray-700 text-base sm:text-lg leading-relaxed\">\n                            "

/-- Literal chunk E of the html_response f-string template in convertToHtml (src/main.py lines 147-234). -/
def tplE : String :=
  "\n                        </p>\n                    </div>\n\n                    <div>\n                        <h2 class=\"text-2xl font-bold text-gray-800 mb-3 flex items-center\">\n                            <span class=\"text-3xl mr-3\">👨‍👩‍👧‍👦</span>\n                            나와 우리 가족에게는?\n                        </h2>\n                        <p class=\"text-gray-700 text-base sm:text-lg leading-relaxed\">\n                            "

/-- Literal chunk F of the html_response f-string template in convertToHtml (src/main.py lines 147-234). -/
def tplF : String :=
  "\n                        </p>\n                    </div>\n\n                    <div class=\"bg-yellow-50 border-2 border-dashed border-yellow-400 p-6 rounded-lg\">\n                        <h2 class=\"text-xl font-bold text-yellow-900 mb-3 flex items-center\">\n                            <span class=\"text-2xl mr-3\">🤔</span>\n                            슬기롭게 생각해 보기\n                        </h2>\n                        <p class=\"text-yellow-800 text-base sm:text-lg leading-relaxed\">\n                            "

/-- Literal chunk G of the html_response f-string template in convertToHtml (src/main.py lines 147-234). -/
def tplG : String :=
  "\n                        </p>\n                    </div>\n\n                </div>\n\n                <hr class=\"my-10 border-gray-200\">\n\n                <div class=\"bg-gray-50 p-6 rounded-lg\">\n                    <h2 class=\"text-2xl font-bold text-gray-800 mb-5 flex items-center\">\n                        <span class=\"text-3xl mr-3\">🔍</span>\n                        오늘의 경제 용어 돋보기\n                    </h2>\n                    <ul class=\"space-y-4\">\n                        "

/-- Literal chunk H of the html_response f-string template in convertToHtml (src/main.py lines 147-234). -/
def tplH : String :=
  "\n                    </ul>\n                </div>\n\n                <hr class=\"my-8 border-gray-200\">\n\n                <div class=\"text-center\">\n                    <a href=\""

/-- Literal chunk I of the html_response f-string template in convertToHtml (src/main.py lines 147-234). -/
def tplI : String :=
  "\" \n                       target=\"_blank\" \n                       rel=\"noopener noreferrer\"\n                       class=\"inline-flex items-center px-6 py-3 bg-blue-600 text-white font-semibold rounded-lg hover:bg-blue-700 transition-colors duration-200 shadow-md hover:shadow-lg\">\n                        <span class=\"text-xl mr-2\">📰</span>\n                        뉴스 원본 보기\n                        <span class=\"ml-2\">↗</span>\n                    </a>\n                </div>\n\n            </div>\n        </div>\n    </div>\n    "

/-- The per-entry loop body of `generate_key_terms_html` (src/main.py lines
132-143): for each `term_info`, build the `term_html` f-string (subscripting
`"term"` then `"definition"`, in evaluation order) and collect the pieces. -/
def keyTermsLoop : List Jval → Except PyError (List String)
  | [] => .ok []
  | term_info :: rest => do
    let t ← pySubscript term_info "term"
    let d ← pySubscript term_info "definition"
    let tail ← keyTermsLoop rest
    .ok ((termTpl0 ++ pyStr t ++ termTpl1 ++ pyStr d ++ termTpl2) :: tail)

/-- `generate_key_terms_html(key_terms)` (src/main.py lines 131-144): iterate
over `key_terms`, render each entry, and `"".join` the pieces. -/
def generate_key_terms_html (key_terms : Jval) : Except PyError String := do
  let items ← pyIter key_terms
  let parts ← keyTermsLoop items
  .ok (String.join parts)

/-- The body of `convertToHtml` after `json.loads` (src/main.py lines
124-235): the required-key validation loop, then the `html_response` f-string,
whose interpolations are evaluated in textual order (title, summary, meaning,
importance, impact_on_us, food_for_thought, the key-terms call, article_url). -/
def convertToHtmlParsed (json_response : Jval) (article_url : String) :
    Except PyError String := do
  checkKeysLoop json_response required_keys
  let vTitle ← pySubscript json_response "title"
  let vSummary ← pySubscript json_response "summary"
  let vMeaning ← pySubscript json_response "meaning"
  let vImportance ← pySubscript json_response "importance"
  let vImpact ← pySubscript json_response "impact_on_us"
  let vFood ← pySubscript json_response "food_for_thought"
  let vKeyTerms ← pySubscript json_response "key_terms"
  let keyTermsHtml ← generate_key_terms_html vKeyTerms
  .ok (tplA ++ pyStr vTitle ++ tplB ++ pyStr vSummary ++ tplC ++ pyStr vMeaning ++
       tplD ++ pyStr vImportance ++ tplE ++ pyStr vImpact ++ tplF ++ pyStr vFood ++
       tplG ++ keyTermsHtml ++ tplH ++ article_url ++ tplI)

/-- `convertToHtml(response, article_url)` (src/main.py lines 120-235):
`json.loads(response)` followed by validation and templating.  `json.loads`
is an external library function, modelled as an explicit parse-function
argument (it is a fixed deterministic function of its input string). -/
def convertToHtml (loads : String → Except PyError Jval)
    (response article_url : String) : Except PyError String := do
  let json_response ← loads response
  convertToHtmlParsed json_response article_url

/-- The anchor element found inside the first list item: `has_attr("href")`
and the attribute value are modelled by the `href` option. -/
structure LinkTag where
  href : Option String

/-- The first `li` of the article list; `first_li.find("a")` is `anchor`. -/
structure FirstLi where
  anchor : Option LinkTag

/-- The `ul.newspaper_article_lst` node; `ul.find("li")` is `firstLi`
(`none` when the list is empty). -/
structure ArticleUl where
  firstLi : Option FirstLi

/-- The `div.newspaper_brick_item _start_page` node; its `find("ul", ...)`
is `ul`. -/
structure BrickDiv where
  ul : Option ArticleUl

/-- The listing-page fetch as observed by `getFirstArticleUrl`: the HTTP
status code and the parsed markup (BeautifulSoup is external; each `find`
result is pre-resolved into an optional node). -/
structure ListingPage where
  status : Nat
  brick : Option BrickDiv

/-- `getFirstArticleUrl(press_code, date, headers)` (src/main.py lines 17-33),
as a function of the fetched page.  Each `x.find(...) if x else None` step is
the corresponding option match; both the `link_tag` being `None` and the
missing `href` attribute raise the same exception of line 31. -/
def getFirstArticleUrl (page : ListingPage) : Except String String :=
  if page.status ≠ 200 then
    .error ("🛑 기사 목록 요청 실패: " ++ toString page.status)
  else
    let brick_div := page.brick
    let ul := match brick_div with
      | some b => b.ul
      | none => none
    let first_li := match ul with
      | some u => u.firstLi
      | none => none
    let link_tag := match first_li with
      | some l => l.anchor
      | none => none
    match link_tag with
    | some a =>
      match a.href with
      | some h => .ok h
      | none => .error "🛑 기사 링크를 찾을 수 없습니다."
    | none => .error "🛑 기사 링크를 찾을 수 없습니다."

/-- The fully resolved section→list→item→anchor→href chain of a listing page,
used in theorem statements: `none` exactly when some node of the chain is
absent. -/
def chainHref (page : ListingPage) : Option String :=
  page.brick.bind (fun b => b.ul) |>.bind (fun u => u.firstLi)
    |>.bind (fun l => l.anchor) |>.bind (fun a => a.href)

/-- The article-page fetch as observed by `getArticleContent`: HTTP status,
and the `get_text` results of the optional title and body containers
(`div.media_end_head_title` and `div#newsct_article`). -/
structure ArticlePage where
  status : Nat
  titleText : Option String
  bodyText : Option String

/-- `getArticleContent(article_url, headers)` (src/main.py lines 36-52): a
non-200 status raises; a missing title container yields the placeholder
"❌ 제목 없음" and a missing body container the placeholder "❌ 본문 없음". -/
def getArticleContent (page : ArticlePage) : Except String (String × String) :=
  if page.status ≠ 200 then
    .error ("🛑 기사 페이지 요청 실패: " ++ toString page.status)
  else
    let title := match page.titleText with
      | some t => t
      | none => "❌ 제목 없음"
    let body := match page.bodyText with
      | some b => b
      | none => "❌ 본문 없음"
    .ok (title, body)

/-- The required environment variables of src/main.py lines 246-254, in
source order. -/
def required_env_vars : List String :=
  ["PRESS_CODE", "GOOGLE_API_KEY", "GEMINI_MODEL", "BASE_URL",
   "TELEGRAM_CHAT_TEST_ID", "TELEGRAM_CHAT_ID", "TELEGRAM_BOT_TOKEN"]

/-- Python truthiness of `os.getenv(var)`: unset (`None`) and the empty
string are both falsy. -/
def envTruthy : Option String → Bool
  | none => false
  | some s => !s.isEmpty

/-- The `missing_vars` list built by the loop of src/main.py lines 256-259. -/
def missingVars (env : String → Option String) : List String :=
  required_env_vars.filter (fun v => !envTruthy (env v))

/-- The environment check of src/main.py lines 261-264: raises `ValueError`
with one message naming every missing variable, comma-joined, when
`missing_vars` is nonempty. -/
def checkEnv (env : String → Option String) : Except String Unit :=
  if missingVars env ≠ [] then
    .error ("🛑 필수 환경변수가 설정되지 않았습니다: " ++
            String.intercalate ", " (missingVars env))
  else
    .ok ()

/-- Network/side-effect events of the `__main__` block, in execution order. -/
inductive MainEvent where
  | fetchListing
  | fetchArticle
  | geminiCall (n : Nat)
  | createPost
  | telegramNotify
deriving DecidableEq

/-- The model calls recorded in a `getGeminiResponse` event trace, as
top-level network events. -/
def geminiCallEvents (trace : List GEvent) : List MainEvent :=
  trace.filterMap (fun e => match e with
    | .call n => some (.geminiCall n)
    | .sleep _ => none)

/-- The external world as seen by one run of `__main__`: the two fetched
pages, the model-call oracle, the `json.loads` parse function, and the
outcome of `api_util.create_post` (`some msg` = an `ApiError` with that
message). -/
structure World where
  listing : ListingPage
  article : ArticlePage
  oracle : Nat → AttemptOutcome
  loads : String → Except PyError Jval
  publishOutcome : Option String

/-- The network events of the `try` block of src/main.py lines 278-316.
Every failure inside the block is caught by the outermost handler (line 315)
after the events so far; a publish `ApiError` additionally triggers the
Telegram notification (lines 309-312). -/
def pipelineEvents (w : World) : List MainEvent :=
  MainEvent.fetchListing ::
    match getFirstArticleUrl w.listing with
    | .error _ => []
    | .ok article_url =>
      MainEvent.fetchArticle ::
        match getArticleContent w.article with
        | .error _ => []
        | .ok _ =>
          let g := getGeminiResponse w.oracle 3 5 3
          geminiCallEvents g.2 ++
            match g.1 with
            | none => []
            | some response =>
              match convertToHtml w.loads response article_url with
              | .error _ => []
              | .ok _ =>
                MainEvent.createPost ::
                  match w.publishOutcome with
                  | some _ => [MainEvent.telegramNotify]
                  | none => []

/-- The `__main__` block of src/main.py lines 239-316 after `load_dotenv`:
the environment check runs first and its `ValueError` propagates out of the
process with no event having occurred; otherwise the pipeline `try` block
runs and produces its events (its own failures are caught and logged). -/
def mainRun (env : String → Option String) (w : World) :
    Except String Unit × List MainEvent :=
  match checkEnv env with
  | .error m => (.error m, [])
  | .ok _ => (.ok (), pipelineEvents w)

/-- Statement helper: the first key among `"term"`/`"definition"` (in the
evaluation order of the `term_html` f-string) that the first offending
key-terms entry lacks, scanning entries in order; `none` when every entry has
both keys. -/
def firstMissingTermKey : List (List (String × Jval)) → Option String
  | [] => none
  | o :: rest =>
    if !(o.any (fun p => p.1 == "term")) then some "term"
    else if !(o.any (fun p => p.1 == "definition")) then some "definition"
    else firstMissingTermKey rest

/-- A sample parsed payload lacking only the `meaning` field. -/
def payloadMissingMeaning : List (String × Jval) :=
  [("title", .jstr "T"), ("summary", .jstr "S"), ("importance", .jstr "I"),
   ("impact_on_us", .jstr "U"), ("food_for_thought", .jstr "F"),
   ("key_terms", .jarr [])]

/-- A sample parsed payload with all seven fields whose single key-terms
entry lacks the `term` key. -/
def payloadBadKeyTerms : List (String × Jval) :=
  [("title", .jstr "T"), ("summary", .jstr "S"), ("meaning", .jstr "M"),
   ("importance", .jstr "I"), ("impact_on_us", .jstr "U"),
   ("food_for_thought", .jstr "F"),
   ("key_terms", .jarr [.jobj [("definition", .jstr "D")]])]

/-! ## Helper lemmas -/

theorem exbindOk {ε α β : Type} (a : α) (f : α → Except ε β) :
    (Except.ok a >>= f : Except ε β) = f a := rfl

theorem exbindErr {ε α β : Type} (e : ε) (f : α → Except ε β) :
    (Except.error e >>= f : Except ε β) = Except.error e := rfl

theorem geminiAttempts_success_step (oracle : Nat → AttemptOutcome) (d sd a r : Nat)
    (text : String) (hm : oracle a = .success text) :
    geminiAttempts oracle d sd a (r + 1) = (some text, [.call a, .sleep sd]) := by
  simp [geminiAttempts, hm]

theorem geminiAttempts_transient_step (oracle : Nat → AttemptOutcome) (d sd a r : Nat)
    (m : String) (hm : oracle a = .failure m) (ht : isTransient m = true) (hr : 0 < r) :
    geminiAttempts oracle d sd a (r + 1) =
      ((geminiAttempts oracle d sd (a + 1) r).1,
        .call a :: .sleep (d * 2 ^ a) :: (geminiAttempts oracle d sd (a + 1) r).2) := by
  simp [geminiAttempts, hm, ht, hr]

theorem geminiAttempts_transient_last (oracle : Nat → AttemptOutcome) (d sd a : Nat)
    (m : String) (hm : oracle a = .failure m) (ht : isTransient m = true) :
    geminiAttempts oracle d sd a 1 = (none, [.call a]) := by
  simp [geminiAttempts, hm, ht]

theorem geminiAttempts_fatal_step (oracle : Nat → AttemptOutcome) (d sd a r : Nat)
    (m : String) (hm : oracle a = .failure m) (ht : isTransient m = false) :
    geminiAttempts oracle d sd a (r + 1) = (none, [.call a]) := by
  simp [geminiAttempts, hm, ht]

theorem geminiAttempts_allTransient (oracle : Nat → AttemptOutcome) (d sd : Nat) :
    ∀ (k a : Nat),
      (∀ i, i < k + 1 → ∃ m, oracle (a + i) = .failure m ∧ isTransient m = true) →
      geminiAttempts oracle d sd a (k + 1) =
        (none, transientEvents d a k ++ [.call (a + k)])
  | 0, a, h => by
    obtain ⟨m, hm, ht⟩ := h 0 (by omega)
    simp only [Nat.add_zero] at hm
    rw [geminiAttempts_transient_last oracle d sd a m hm ht]
    simp [transientEvents]
  | k + 1, a, h => by
    obtain ⟨m, hm, ht⟩ := h 0 (by omega)
    simp only [Nat.add_zero] at hm
    have ih := geminiAttempts_allTransient oracle d sd k (a + 1) (fun i hi => by
      have hx := h (i + 1) (by omega)
      rwa [show a + (i + 1) = a + 1 + i by omega] at hx)
    rw [geminiAttempts_transient_step oracle d sd a (k + 1) m hm ht (by omega), ih,
      show a + 1 + k = a + (k + 1) by omega]
    simp [transientEvents]

theorem geminiAttempts_reach_success (oracle : Nat → AttemptOutcome) (d sd : Nat)
    (text : String) :
    ∀ (k a r : Nat), k < r →
      (∀ i, i < k → ∃ m, oracle (a + i) = .failure m ∧ isTransient m = true) →
      oracle (a + k) = .success text →
      geminiAttempts oracle d sd a r =
        (some text, transientEvents d a k ++ [.call (a + k), .sleep sd])
  | 0, a, r, hr, _, hs => by
    obtain ⟨q, rfl⟩ : ∃ q, r = q + 1 := ⟨r - 1, by omega⟩
    simp only [Nat.add_zero] at hs
    rw [geminiAttempts_success_step oracle d sd a q text hs]
    simp [transientEvents]
  | k + 1, a, r, hr, hf, hs => by
    obtain ⟨q, rfl⟩ : ∃ q, r = q + 1 := ⟨r - 1, by omega⟩
    obtain ⟨m, hm, ht⟩ := hf 0 (by omega)
    simp only [Nat.add_zero] at hm
    have ih := geminiAttempts_reach_success oracle d sd text k (a + 1) q (by omega)
      (fun i hi => by
        have hx := hf (i + 1) (by omega)
        rwa [show a + (i + 1) = a + 1 + i by omega] at hx)
      (by rwa [show a + (k + 1) = a + 1 + k by omega] at hs)
    rw [geminiAttempts_transient_step oracle d sd a q m hm ht (by omega), ih,
      show a + 1 + k = a + (k + 1) by omega]
    simp [transientEvents]

theorem geminiAttempts_result (oracle : Nat → AttemptOutcome) (d sd : Nat) :
    ∀ (r a : Nat),
      (geminiAttempts oracle d sd a r).1 = none ∨
      ∃ i text, i < r ∧ oracle (a + i) = .success text ∧
        (geminiAttempts oracle d sd a r).1 = some text
  | 0, a => .inl rfl
  | r + 1, a => by
    match hoa : oracle a with
    | .success text =>
      right
      exact ⟨0, text, by omega, by simpa using hoa,
        by rw [geminiAttempts_success_step oracle d sd a r text hoa]⟩
    | .failure msg =>
      cases ht : isTransient msg with
      | false =>
        left
        rw [geminiAttempts_fatal_step oracle d sd a r msg hoa ht]
      | true =>
        match r with
        | 0 =>
          left
          rw [geminiAttempts_transient_last oracle d sd a msg hoa ht]
        | r + 1 =>
          rcases geminiAttempts_result oracle d sd (r + 1) (a + 1) with hnone | ⟨i, text, hi, hs, hres⟩
          · left
            rw [geminiAttempts_transient_step oracle d sd a (r + 1) msg hoa ht (by omega)]
            exact hnone
          · right
            refine ⟨i + 1, text, by omega, ?_, ?_⟩
            · rwa [show a + (i + 1) = a + 1 + i by omega]
            · rw [geminiAttempts_transient_step oracle d sd a (r + 1) msg hoa ht (by omega)]
              exact hres

theorem checkKeysLoop_error (fields : List (String × Jval)) :
    ∀ (ks : List String) (k : String),
      ks.find? (fun key => !(fields.any (fun p => p.1 == key))) = some k →
      checkKeysLoop (.jobj fields) ks =
        .error (.exn ("🛑 " ++ k ++ " 키가 존재하지 않습니다."))
  | [], k, h => by simp at h
  | key :: rest, k, h => by
    cases hany : fields.any (fun p => p.1 == key) with
    | false =>
      have hk : k = key := by
        rw [List.find?_cons_of_pos _ (by simp [hany])] at h
        exact (Option.some_inj.mp h).symm
      subst hk
      simp [checkKeysLoop, pyIn, hany, exbindOk]
    | true =>
      have h' : rest.find? (fun key => !(fields.any (fun p => p.1 == key))) = some k := by
        rwa [List.find?_cons_of_neg _ (by simp [hany])] at h
      simp [checkKeysLoop, pyIn, hany, exbindOk, checkKeysLoop_error fields rest k h']

theorem checkKeysLoop_ok (fields : List (String × Jval)) :
    ∀ (ks : List String),
      ks.all (fun key => fields.any (fun p => p.1 == key)) = true →
      checkKeysLoop (.jobj fields) ks = .ok ()
  | [], _ => rfl
  | key :: rest, h => by
    simp only [List.all_cons, Bool.and_eq_true] at h
    simp [checkKeysLoop, pyIn, h.1, exbindOk, checkKeysLoop_ok fields rest h.2]

theorem dictGet_isSome_of_any (fields : List (String × Jval)) (k : String)
    (h : fields.any (fun p => p.1 == k) = true) :
    ∃ v, dictGet fields k = some v := by
  obtain ⟨p, hp, hpk⟩ := List.any_eq_true.mp h
  rcases hsome : fields.reverse.find? (fun p => p.1 == k) with _ | q
  · exfalso
    have := List.find?_eq_none.mp hsome p (List.mem_reverse.mpr hp)
    simp [hpk] at this
  · exact ⟨q.2, by simp [dictGet, hsome]⟩

theorem dictGet_eq_none_of_any_false (fields : List (String × Jval)) (k : String)
    (h : fields.any (fun p => p.1 == k) = false) :
    dictGet fields k = none := by
  have hall : ∀ p ∈ fields.reverse, ¬((fun p => p.1 == k) p = true) := by
    intro p hp
    have hp' : p ∈ fields := List.mem_reverse.mp hp
    have := List.any_eq_false.mp h p hp'
    simpa using this
  simp [dictGet, List.find?_eq_none.mpr hall]

theorem firstMissingTermKey_mem :
    ∀ (objs : List (List (String × Jval))) (k : String),
      firstMissingTermKey objs = some k → k = "term" ∨ k = "definition"
  | [], k, h => by simp [firstMissingTermKey] at h
  | o :: rest, k, h => by
    unfold firstMissingTermKey at h
    by_cases ht : (o.any (fun p => p.1 == "term")) = true
    · by_cases hd : (o.any (fun p => p.1 == "definition")) = true
      · exact firstMissingTermKey_mem rest k (by simpa [ht, hd] using h)
      · right
        simp only [ht, hd, Bool.not_true, Bool.not_false, if_false, if_true] at h
        simp at h
        exact h.symm
    · left
      simp only [Bool.not_eq_true] at ht
      simp only [ht, Bool.not_false, if_true] at h
      simp at h
      exact h.symm

theorem keyTermsLoop_keyError :
    ∀ (objs : List (List (String × Jval))) (k : String),
      firstMissingTermKey objs = some k →
      keyTermsLoop (objs.map Jval.jobj) = .error (.keyError k)
  | [], k, h => by simp [firstMissingTermKey] at h
  | o :: rest, k, h => by
    unfold firstMissingTermKey at h
    by_cases ht : (o.any (fun p => p.1 == "term")) = true
    · obtain ⟨vt, hvt⟩ := dictGet_isSome_of_any o "term" ht
      by_cases hd : (o.any (fun p => p.1 == "definition")) = true
      · obtain ⟨vd, hvd⟩ := dictGet_isSome_of_any o "definition" hd
        have h' : firstMissingTermKey rest = some k := by simpa [ht, hd] using h
        simp [keyTermsLoop, pySubscript, hvt, hvd, exbindOk, exbindErr,
          keyTermsLoop_keyError rest k h']
      · have hk : k = "definition" := by
          simp only [ht, hd, Bool.not_true, Bool.not_false, if_false, if_true] at h
          simp at h
          exact h.symm
        subst hk
        have hdf : (o.any fun p => p.1 == "definition") = false := by
          revert hd
          cases (o.any fun p => p.1 == "definition") <;> simp
        have hnone := dictGet_eq_none_of_any_false o "definition" hdf
        simp [keyTermsLoop, pySubscript, hvt, hnone, exbindOk, exbindErr]
    · have hk : k = "term" := by
        simp only [Bool.not_eq_true] at ht
        simp only [ht, Bool.not_false, if_true] at h
        simp at h
        exact h.symm
      subst hk
      have htf : (o.any fun p => p.1 == "term") = false := by
        revert ht
        cases (o.any fun p => p.1 == "term") <;> simp
      have hnone := dictGet_eq_none_of_any_false o "term" htf
      simp [keyTermsLoop, pySubscript, hnone, exbindErr]

theorem getD_mem_of_lt {α : Type} (d : α) :
    ∀ (l : List α) (i : Nat), i < l.length → l.getD i d ∈ l
  | [], i, hi => absurd hi (by simp)
  | a :: t, 0, _ => by simp
  | a :: t, i + 1, hi => by
    have := getD_mem_of_lt d t i (by simpa using hi)
    simp only [List.getD_cons_succ]
    exact List.mem_cons_of_mem a this

/-! ## Claim theorems -/

/-- C1: with `retry_delay = 5`, every run in which all `max_retries` attempts
raise transient-classified errors produces exactly the trace
call 0, sleep 5·2⁰, call 1, sleep 5·2¹, …, ending in the final call with no
sleep after it, and returns `none`.  The attempt list is given as the list of
error messages, one per attempt, each containing a transient marker. -/
theorem gemini_transient_backoff_timing (msgs : List String) (sd : Nat)
    (hne : msgs ≠ []) (htr : msgs.all isTransient = true) :
    getGeminiResponse (fun n => .failure (msgs.getD n "")) msgs.length 5 sd =
      (none, transientEvents 5 0 (msgs.length - 1) ++ [.call (msgs.length - 1)]) := by
  obtain ⟨k, hk⟩ : ∃ k, msgs.length = k + 1 :=
    ⟨msgs.length - 1, by have := List.length_pos.mpr hne; omega⟩
  have h : ∀ i, i < k + 1 →
      ∃ m, (fun n => AttemptOutcome.failure (msgs.getD n "")) (0 + i) = .failure m ∧
        isTransient m = true := by
    intro i hi
    refine ⟨msgs.getD (0 + i) "", rfl, ?_⟩
    have hmem : msgs.getD (0 + i) "" ∈ msgs := getD_mem_of_lt "" msgs (0 + i) (by omega)
    exact List.all_eq_true.mp htr _ hmem
  have hmain := geminiAttempts_allTransient (fun n => .failure (msgs.getD n "")) 5 sd k 0 h
  rw [getGeminiResponse, hk]
  simpa using hmain

/-- C1 witness: four consecutive transient failures (max_retries = 4) yield
sleeps of 5, 10 and 20 seconds after attempts 0, 1 and 2, and no sleep after
the final attempt 3. -/
theorem gemini_transient_backoff_timing_witness :
    (["503 Service Unavailable", "429 rate limited", "quota RESOURCE_EXHAUSTED",
       "UNAVAILABLE again"].all isTransient = true) ∧
    getGeminiResponse
      (fun n => .failure (["503 Service Unavailable", "429 rate limited",
        "quota RESOURCE_EXHAUSTED", "UNAVAILABLE again"].getD n ""))
      (["503 Service Unavailable", "429 rate limited", "quota RESOURCE_EXHAUSTED",
        "UNAVAILABLE again"].length) 5 3 =
      (none, [.call 0, .sleep 5, .call 1, .sleep 10, .call 2, .sleep 20, .call 3]) :=
  ⟨rfl, by
    have := gemini_transient_backoff_timing
      ["503 Service Unavailable", "429 rate limited", "quota RESOURCE_EXHAUSTED",
        "UNAVAILABLE again"] 3 (by simp) rfl
    simpa [transientEvents] using this⟩

/-- C2: `getGeminiResponse` is total over every possible sequence of
model-call outcomes (every raised exception is caught by the loop): the value
handed to the caller is either `none` or the raw response text of a
successful attempt — no other outcome crosses the boundary. -/
theorem gemini_text_or_null (oracle : Nat → AttemptOutcome) (mr rd sd : Nat) :
    (getGeminiResponse oracle mr rd sd).1 = none ∨
    ∃ k text, k < mr ∧ oracle k = .success text ∧
      (getGeminiResponse oracle mr rd sd).1 = some text := by
  have := geminiAttempts_result oracle rd sd mr 0
  simpa [getGeminiResponse] using this

/-- C3: an error whose message contains none of the transient markers makes
`getGeminiResponse` return `none` right away: exactly one call event, no
sleep, no retry (for any positive `max_retries`). -/
theorem gemini_fatal_single_attempt (oracle : Nat → AttemptOutcome)
    (msg : String) (m rd sd : Nat)
    (h0 : oracle 0 = .failure msg) (hfatal : isTransient msg = false) :
    getGeminiResponse oracle (m + 1) rd sd = (none, [.call 0]) := by
  rw [getGeminiResponse]
  exact geminiAttempts_fatal_step oracle rd sd 0 m msg h0 hfatal

/-- C3 witness: a non-transient error message on attempt 0 with
`max_retries = 3` gives `none` after the single call event. -/
theorem gemini_fatal_single_attempt_witness :
    (fun _ : Nat => AttemptOutcome.failure "Invalid API key") 0 =
        .failure "Invalid API key" ∧
    isTransient "Invalid API key" = false ∧
    getGeminiResponse (fun _ => .failure "Invalid API key") 3 5 3 = (none, [.call 0]) :=
  ⟨rfl, rfl, gemini_fatal_single_attempt (fun _ => .failure "Invalid API key")
    "Invalid API key" 2 5 3 rfl rfl⟩

/-- C4: if the first `msgs.length` attempts fail with transient errors and
attempt `msgs.length` (which is `< max_retries`) succeeds with `text`, the
whole run produces the backoff events for the failed attempts, then the
success call followed by exactly one `success_delay` sleep, returns
`some text`, and performs nothing afterwards. -/
theorem gemini_success_after_transient (msgs : List String) (text : String)
    (mr rd sd : Nat)
    (htr : msgs.all isTransient = true) (hlt : msgs.length < mr) :
    getGeminiResponse
      (fun n => if n < msgs.length then .failure (msgs.getD n "") else .success text)
      mr rd sd =
      (some text, transientEvents rd 0 msgs.length ++
        [.call msgs.length, .sleep sd]) := by
  have hf : ∀ i, i < msgs.length →
      ∃ m, (fun n => if n < msgs.length then
          AttemptOutcome.failure (msgs.getD n "") else .success text) (0 + i) =
        .failure m ∧ isTransient m = true := by
    intro i hi
    refine ⟨msgs.getD (0 + i) "", by simp [Nat.zero_add, hi], ?_⟩
    exact List.all_eq_true.mp htr _ (getD_mem_of_lt "" msgs (0 + i) (by omega))
  have hs : (fun n => if n < msgs.length then
      AttemptOutcome.failure (msgs.getD n "") else .success text) (0 + msgs.length) =
      .success text := by simp
  have := geminiAttempts_reach_success
    (fun n => if n < msgs.length then .failure (msgs.getD n "") else .success text)
    rd sd text msgs.length 0 mr hlt hf hs
  simpa [getGeminiResponse] using this

/-- C4 witness: one transient failure then a success with `max_retries = 3`:
backoff sleep 5 after attempt 0, then the successful call 1 followed by the
single success-delay sleep of 3 seconds, returning the response text. -/
theorem gemini_success_after_transient_witness :
    (["503 overloaded"].all isTransient = true) ∧
    (["503 overloaded"].length < 3) ∧
    getGeminiResponse
      (fun n => if n < ["503 overloaded"].length
        then .failure (["503 overloaded"].getD n "") else .success "RESPONSE") 3 5 3 =
      (some "RESPONSE", [.call 0, .sleep 5, .call 1, .sleep 3]) :=
  ⟨rfl, by decide, by
    have := gemini_success_after_transient ["503 overloaded"] "RESPONSE" 3 5 3 rfl
      (by decide)
    simpa [transientEvents] using this⟩

/-- C5: for a parsed payload (a JSON object) missing at least one required
field, the validation loop of `convertToHtml` raises the schema error naming
exactly the first missing field in the fixed order of `required_keys`:
the error message is determined by `List.find?` over that order, so no later
field is examined. -/
theorem convertToHtml_first_missing_field (fields : List (String × Jval))
    (url k : String)
    (h : required_keys.find? (fun key => !(fields.any (fun p => p.1 == key))) = some k) :
    convertToHtmlParsed (.jobj fields) url =
      .error (.exn ("🛑 " ++ k ++ " 키가 존재하지 않습니다.")) := by
  have hloop := checkKeysLoop_error fields required_keys k h
  unfold convertToHtmlParsed
  rw [hloop]
  rfl

/-- C5 witness: a payload missing only `meaning` is rejected with the error
naming `meaning`. -/
theorem convertToHtml_first_missing_field_witness :
    required_keys.find?
        (fun key => !(payloadMissingMeaning.any (fun p => p.1 == key))) =
      some "meaning" ∧
    convertToHtmlParsed (.jobj payloadMissingMeaning) "https://example.com/a1" =
      .error (.exn "🛑 meaning 키가 존재하지 않습니다.") :=
  ⟨rfl, by
    have := convertToHtml_first_missing_field payloadMissingMeaning
      "https://example.com/a1" "meaning" rfl
    exact this⟩

/-- C10: the validation loop checks only the seven top-level fields; a payload
passing it whose `key_terms` array contains an entry (all entries being
objects) that lacks `term` or `definition` makes rendering fail with a raw
KeyError naming that inner key — not the named missing-field schema error of
the loop — and no document is produced. -/
theorem convertToHtml_keyterms_raw_keyError (fields : List (String × Jval))
    (url : String) (objs : List (List (String × Jval))) (k : String)
    (hkeys : required_keys.all (fun key => fields.any (fun p => p.1 == key)) = true)
    (hkt : dictGet fields "key_terms" = some (.jarr (objs.map Jval.jobj)))
    (hbad : firstMissingTermKey objs = some k) :
    convertToHtmlParsed (.jobj fields) url = .error (.keyError k) ∧
      (k = "term" ∨ k = "definition") := by
  refine ⟨?_, firstMissingTermKey_mem objs k hbad⟩
  have hok := checkKeysLoop_ok fields required_keys hkeys
  have hany : ∀ key ∈ required_keys, fields.any (fun p => p.1 == key) = true :=
    fun key hk => List.all_eq_true.mp hkeys key hk
  obtain ⟨v1, hv1⟩ := dictGet_isSome_of_any fields "title" (hany _ (by simp [required_keys]))
  obtain ⟨v2, hv2⟩ := dictGet_isSome_of_any fields "summary" (hany _ (by simp [required_keys]))
  obtain ⟨v3, hv3⟩ := dictGet_isSome_of_any fields "meaning" (hany _ (by simp [required_keys]))
  obtain ⟨v4, hv4⟩ := dictGet_isSome_of_any fields "importance" (hany _ (by simp [required_keys]))
  obtain ⟨v5, hv5⟩ := dictGet_isSome_of_any fields "impact_on_us" (hany _ (by simp [required_keys]))
  obtain ⟨v6, hv6⟩ := dictGet_isSome_of_any fields "food_for_thought" (hany _ (by simp [required_keys]))
  have hterms : generate_key_terms_html (.jarr (objs.map Jval.jobj)) =
      .error (.keyError k) := by
    unfold generate_key_terms_html
    rw [show pyIter (.jarr (objs.map Jval.jobj)) = .ok (objs.map Jval.jobj) from rfl,
      exbindOk, keyTermsLoop_keyError objs k hbad]
    rfl
  unfold convertToHtmlParsed
  rw [hok, exbindOk]
  rw [show pySubscript (.jobj fields) "title" = .ok v1 by simp [pySubscript, hv1], exbindOk]
  rw [show pySubscript (.jobj fields) "summary" = .ok v2 by simp [pySubscript, hv2], exbindOk]
  rw [show pySubscript (.jobj fields) "meaning" = .ok v3 by simp [pySubscript, hv3], exbindOk]
  rw [show pySubscript (.jobj fields) "importance" = .ok v4 by simp [pySubscript, hv4], exbindOk]
  rw [show pySubscript (.jobj fields) "impact_on_us" = .ok v5 by simp [pySubscript, hv5], exbindOk]
  rw [show pySubscript (.jobj fields) "food_for_thought" = .ok v6 by simp [pySubscript, hv6], exbindOk]
  rw [show pySubscript (.jobj fields) "key_terms" =
      .ok (.jarr (objs.map Jval.jobj)) by simp [pySubscript, hkt], exbindOk]
  rw [hterms]
  rfl

/-- C10 witness: a payload with all seven fields whose single key-terms entry
lacks `term` fails with `KeyError "term"`, not the schema error. -/
theorem convertToHtml_keyterms_raw_keyError_witness :
    (required_keys.all (fun key => payloadBadKeyTerms.any (fun p => p.1 == key)) = true) ∧
    dictGet payloadBadKeyTerms "key_terms" =
      some (.jarr ([[("definition", Jval.jstr "D")]].map Jval.jobj)) ∧
    firstMissingTermKey [[("definition", Jval.jstr "D")]] = some "term" ∧
    convertToHtmlParsed (.jobj payloadBadKeyTerms) "https://example.com/a1" =
      .error (.keyError "term") :=
  ⟨rfl, rfl, rfl,
    (convertToHtml_keyterms_raw_keyError payloadBadKeyTerms "https://example.com/a1"
      [[("definition", Jval.jstr "D")]] "term" rfl rfl rfl).1⟩

/-- C6: on a successfully fetched listing page (HTTP 200),
`getFirstArticleUrl` is determined entirely by the resolved
section→list→item→anchor→href chain: whenever any node of the chain is absent
it fails with the one ParseError message "🛑 기사 링크를 찾을 수 없습니다."
(never a null-dereference fault — the function is total), and when the chain
is complete it returns the href. -/
theorem locate_chain_parse_error (page : ListingPage) (h : page.status = 200) :
    (chainHref page = none →
      getFirstArticleUrl page = .error "🛑 기사 링크를 찾을 수 없습니다.") ∧
    (∀ u, chainHref page = some u → getFirstArticleUrl page = .ok u) := by
  obtain ⟨st, brick⟩ := page
  simp only at h
  subst h
  cases brick with
  | none => simp [getFirstArticleUrl, chainHref]
  | some b =>
    obtain ⟨ul⟩ := b
    cases ul with
    | none => simp [getFirstArticleUrl, chainHref]
    | some u =>
      obtain ⟨li⟩ := u
      cases li with
      | none => simp [getFirstArticleUrl, chainHref]
      | some l =>
        obtain ⟨tag⟩ := l
        cases tag with
        | none => simp [getFirstArticleUrl, chainHref]
        | some a =>
          obtain ⟨href⟩ := a
          cases href with
          | none => simp [getFirstArticleUrl, chainHref]
          | some hrefVal => simp [getFirstArticleUrl, chainHref]

/-- C6 witness: a 200 page with no brick section fails with the ParseError
message. -/
theorem locate_chain_parse_error_witness :
    (ListingPage.mk 200 none).status = 200 ∧
    chainHref (ListingPage.mk 200 none) = none ∧
    getFirstArticleUrl (ListingPage.mk 200 none) =
      .error "🛑 기사 링크를 찾을 수 없습니다." :=
  ⟨rfl, rfl, (locate_chain_parse_error (ListingPage.mk 200 none) rfl).1 rfl⟩

/-- C7: on a successfully fetched article page (HTTP 200), extraction never
fails: it returns `.ok` with the text of the title container or the fixed
placeholder "❌ 제목 없음" when the container is absent, and the body
text of the body container or the fixed placeholder "❌ 본문 없음" when absent. -/
theorem extract_placeholders (page : ArticlePage) (h : page.status = 200) :
    getArticleContent page =
      .ok (page.titleText.getD "❌ 제목 없음", page.bodyText.getD "❌ 본문 없음") := by
  obtain ⟨st, t, b⟩ := page
  simp only at h
  subst h
  cases t <;> cases b <;> simp [getArticleContent]

/-- C7 witness: a 200 page missing both containers yields both placeholders. -/
theorem extract_placeholders_witness :
    (ArticlePage.mk 200 none none).status = 200 ∧
    getArticleContent (ArticlePage.mk 200 none none) =
      .ok ("❌ 제목 없음", "❌ 본문 없음") :=
  ⟨rfl, extract_placeholders (ArticlePage.mk 200 none none) rfl⟩

/-- C8: `convertToHtml` is deterministic — for any fixed parse function,
two invocations on equal raw response strings and equal article URLs produce
byte-identical HTML results. -/
theorem convertToHtml_deterministic (loads : String → Except PyError Jval)
    (r1 r2 u1 u2 : String) (h1 : r1 = r2) (h2 : u1 = u2) :
    convertToHtml loads r1 u1 = convertToHtml loads r2 u2 := by
  subst h1
  subst h2
  rfl

/-- C8 witness: determinism applied at a concrete parse function, response and
URL. -/
theorem convertToHtml_deterministic_witness :
    convertToHtml (fun s => .ok (.jstr s)) "resp" "https://example.com/a1" =
      convertToHtml (fun s => .ok (.jstr s)) "resp" "https://example.com/a1" :=
  convertToHtml_deterministic (fun s => .ok (.jstr s))
    "resp" "resp" "https://example.com/a1" "https://example.com/a1" rfl rfl

/-- C9: if any required environment variable is unset, the run fails before
any network event with the single ValueError message listing the complete
`missing_vars` (the comma-join of every variable that is unset or empty), and
each unset variable is indeed in that list. -/
theorem env_check_aborts (env : String → Option String) (w : World) (v : String)
    (hv : v ∈ required_env_vars) (habs : env v = none) :
    mainRun env w =
      (.error ("🛑 필수 환경변수가 설정되지 않았습니다: " ++
        String.intercalate ", " (missingVars env)), []) ∧
    v ∈ missingVars env := by
  have hmem : v ∈ missingVars env := by
    unfold missingVars
    refine List.mem_filter.mpr ⟨hv, ?_⟩
    simp [envTruthy, habs]
  have hne : missingVars env ≠ [] := List.ne_nil_of_mem hmem
  refine ⟨?_, hmem⟩
  unfold mainRun checkEnv
  rw [if_pos hne]

/-- C9 witness: with every variable unset, the run aborts with the message
listing all seven names and no network event occurs. -/
theorem env_check_aborts_witness :
    "PRESS_CODE" ∈ required_env_vars ∧
    mainRun (fun _ => none)
      (World.mk (ListingPage.mk 200 none) (ArticlePage.mk 200 none none)
        (fun _ => .failure "x") (fun _ => .error .jsonDecodeError) none) =
      (.error ("🛑 필수 환경변수가 설정되지 않았습니다: " ++
        String.intercalate ", " (missingVars (fun _ => none))), []) ∧
    "PRESS_CODE" ∈ missingVars (fun _ => none) :=
  ⟨by simp [required_env_vars],
    (env_check_aborts (fun _ => none)
      (World.mk (ListingPage.mk 200 none) (ArticlePage.mk 200 none none)
        (fun _ => .failure "x") (fun _ => .error .jsonDecodeError) none)
      "PRESS_CODE" (by simp [required_env_vars]) rfl).1,
    (env_check_aborts (fun _ => none)
      (World.mk (ListingPage.mk 200 none) (ArticlePage.mk 200 none none)
        (fun _ => .failure "x") (fun _ => .error .jsonDecodeError) none)
      "PRESS_CODE" (by simp [required_env_vars]) rfl).2⟩
